import Mathlib

/-!
Verification of the multi-agent orchestration core of the `agents-stocks-psx`
repository: the generic agent run-loop (`src/psx/agents/base.py`), the
supervisor planning/dispatch/synthesis state machine
(`src/psx/agents/supervisor.py`), the analyst output shaping
(`src/psx/agents/analyst_agent.py`) and the data schemas
(`src/psx/agents/schemas.py`).

Python values flowing through the orchestrator are JSON-shaped (they come
from `json.loads` on model text); they are embedded as the inductive `JVal`.
`json.loads` / `json.dumps` are modelled on the JSON sublanguage the
orchestrator actually exchanges: numbers are integers or decimal fractions
(no exponents), strings carry no escape sequences (`dumps` escapes quotes and
backslashes).  Exceptions are embedded as `Except`; Python `TypeError`,
`AttributeError`, `NameError`/`UnboundLocalError` and propagated provider
exceptions are the constructors of `PyErr`.
-/

namespace PSX

/-- JSON-shaped Python values: `None`, `bool`, numbers (modelled as `ℚ`),
`str`, `list` and `dict` (insertion-ordered association list). -/
inductive JVal where
  | null : JVal
  | bool (b : Bool) : JVal
  | num (q : ℚ) : JVal
  | str (s : String) : JVal
  | arr (xs : List JVal) : JVal
  | obj (fields : List (String × JVal)) : JVal

mutual

/-- Decidable equality of JSON values (the automatic derivation does not
handle the nested occurrence under `List`). -/
def JVal.decEq : (a b : JVal) → Decidable (a = b)
  | .null, .null => .isTrue rfl
  | .null, .bool _ => .isFalse (fun h => JVal.noConfusion h)
  | .null, .num _ => .isFalse (fun h => JVal.noConfusion h)
  | .null, .str _ => .isFalse (fun h => JVal.noConfusion h)
  | .null, .arr _ => .isFalse (fun h => JVal.noConfusion h)
  | .null, .obj _ => .isFalse (fun h => JVal.noConfusion h)
  | .bool _, .null => .isFalse (fun h => JVal.noConfusion h)
  | .bool a, .bool b =>
    if h : a = b then .isTrue (by rw [h]) else .isFalse (by simp [h])
  | .bool _, .num _ => .isFalse (fun h => JVal.noConfusion h)
  | .bool _, .str _ => .isFalse (fun h => JVal.noConfusion h)
  | .bool _, .arr _ => .isFalse (fun h => JVal.noConfusion h)
  | .bool _, .obj _ => .isFalse (fun h => JVal.noConfusion h)
  | .num _, .null => .isFalse (fun h => JVal.noConfusion h)
  | .num _, .bool _ => .isFalse (fun h => JVal.noConfusion h)
  | .num a, .num b =>
    if h : a = b then .isTrue (by rw [h]) else .isFalse (by simp [h])
  | .num _, .str _ => .isFalse (fun h => JVal.noConfusion h)
  | .num _, .arr _ => .isFalse (fun h => JVal.noConfusion h)
  | .num _, .obj _ => .isFalse (fun h => JVal.noConfusion h)
  | .str _, .null => .isFalse (fun h => JVal.noConfusion h)
  | .str _, .bool _ => .isFalse (fun h => JVal.noConfusion h)
  | .str _, .num _ => .isFalse (fun h => JVal.noConfusion h)
  | .str a, .str b =>
    if h : a = b then .isTrue (by rw [h]) else .isFalse (by simp [h])
  | .str _, .arr _ => .isFalse (fun h => JVal.noConfusion h)
  | .str _, .obj _ => .isFalse (fun h => JVal.noConfusion h)
  | .arr _, .null => .isFalse (fun h => JVal.noConfusion h)
  | .arr _, .bool _ => .isFalse (fun h => JVal.noConfusion h)
  | .arr _, .num _ => .isFalse (fun h => JVal.noConfusion h)
  | .arr _, .str _ => .isFalse (fun h => JVal.noConfusion h)
  | .arr a, .arr b =>
    match JVal.decEqList a b with
    | .isTrue h => .isTrue (by rw [h])
    | .isFalse h => .isFalse (by simp [h])
  | .arr _, .obj _ => .isFalse (fun h => JVal.noConfusion h)
  | .obj _, .null => .isFalse (fun h => JVal.noConfusion h)
  | .obj _, .bool _ => .isFalse (fun h => JVal.noConfusion h)
  | .obj _, .num _ => .isFalse (fun h => JVal.noConfusion h)
  | .obj _, .str _ => .isFalse (fun h => JVal.noConfusion h)
  | .obj _, .arr _ => .isFalse (fun h => JVal.noConfusion h)
  | .obj a, .obj b =>
    match JVal.decEqFields a b with
    | .isTrue h => .isTrue (by rw [h])
    | .isFalse h => .isFalse (by simp [h])

/-- Decidable equality of JSON value lists. -/
def JVal.decEqList : (a b : List JVal) → Decidable (a = b)
  | [], [] => .isTrue rfl
  | [], _ :: _ => .isFalse (fun h => List.noConfusion h)
  | _ :: _, [] => .isFalse (fun h => List.noConfusion h)
  | x :: xs, y :: ys =>
    match JVal.decEq x y with
    | .isTrue h1 =>
      match JVal.decEqList xs ys with
      | .isTrue h2 => .isTrue (by rw [h1, h2])
      | .isFalse h2 => .isFalse (by simp [h2])
    | .isFalse h1 => .isFalse (by simp [h1])

/-- Decidable equality of JSON object field lists. -/
def JVal.decEqFields : (a b : List (String × JVal)) → Decidable (a = b)
  | [], [] => .isTrue rfl
  | [], _ :: _ => .isFalse (fun h => List.noConfusion h)
  | _ :: _, [] => .isFalse (fun h => List.noConfusion h)
  | (k, v) :: xs, (l, w) :: ys =>
    if hk : k = l then
      match JVal.decEq v w with
      | .isTrue h1 =>
        match JVal.decEqFields xs ys with
        | .isTrue h2 => .isTrue (by rw [hk, h1, h2])
        | .isFalse h2 => .isFalse (by simp [h2])
      | .isFalse h1 => .isFalse (by simp [h1])
    else .isFalse (by simp [hk])

end

instance : DecidableEq JVal := JVal.decEq

instance {ε α : Type} [DecidableEq ε] [DecidableEq α] :
    DecidableEq (Except ε α) := fun a b =>
  match a, b with
  | .ok x, .ok y =>
    if h : x = y then .isTrue (by rw [h]) else .isFalse (by simp [h])
  | .error x, .error y =>
    if h : x = y then .isTrue (by rw [h]) else .isFalse (by simp [h])
  | .ok _, .error _ => .isFalse (fun h => Except.noConfusion h)
  | .error _, .ok _ => .isFalse (fun h => Except.noConfusion h)

/-- Python `dict` insertion: an existing key is updated in place (its position
is kept), a new key is appended.  Used both for `state.data[symbol] = ...`
writes and for duplicate-key collapse in `json.loads`. -/
def pyDictInsert {α : Type} (l : List (String × α)) (k : String) (v : α) :
    List (String × α) :=
  if l.any (fun p => p.1 = k) then
    l.map (fun p => if p.1 = k then (k, v) else p)
  else
    l ++ [(k, v)]

/-- Python truthiness of a JSON-shaped value (`if x:`). -/
def pyTruthy : JVal → Bool
  | .null => false
  | .bool b => b
  | .num q => q ≠ 0
  | .str s => s ≠ ""
  | .arr xs => !xs.isEmpty
  | .obj fs => !fs.isEmpty

/-- Python `dict.get(k)` for JSON dicts.  Every call site in the embedded code
receives a dict, so the non-dict case (an `AttributeError` in Python) is
modelled as `none`. -/
def jget (v : JVal) (k : String) : Option JVal :=
  match v with
  | .obj fs => (fs.find? (fun p => p.1 = k)).map (fun p => p.2)
  | _ => none

/-- Python `dict.get(k, dflt)`. -/
def jgetD (v : JVal) (k : String) (dflt : JVal) : JVal :=
  (jget v k).getD dflt

/-- The whitespace characters `json.loads` skips between tokens. -/
def isJsonWs (c : Char) : Bool :=
  c = ' ' || c = '\t' || c = '\n' || c = '\r'

/-- Drop leading JSON whitespace. -/
def skipWs : List Char → List Char
  | [] => []
  | c :: cs => if isJsonWs c then skipWs cs else c :: cs

/-- Body of a JSON string literal after the opening quote, up to the closing
quote.  Escape sequences are outside the modelled sublanguage. -/
def parseStrAux : List Char → Option (List Char × List Char)
  | [] => none
  | c :: cs =>
    if c = '"' then some ([], cs)
    else if c = '\\' then none
    else (parseStrAux cs).map (fun p => (c :: p.1, p.2))

/-- Numeric value of a digit run. -/
def natOfDigits (ds : List Char) : ℕ :=
  ds.foldl (fun acc d => 10 * acc + (d.toNat - '0'.toNat)) 0

/-- A JSON number: optional minus, integer part, optional decimal fraction. -/
def parseNumber (cs : List Char) : Option (ℚ × List Char) :=
  let (neg, cs1) := match cs with
    | '-' :: rest => (true, rest)
    | _ => (false, cs)
  let intDigits := cs1.takeWhile Char.isDigit
  let rest1 := cs1.dropWhile Char.isDigit
  if intDigits.isEmpty then none
  else
    let ip : ℚ := (natOfDigits intDigits : ℚ)
    match rest1 with
    | '.' :: rest2 =>
      let fracDigits := rest2.takeWhile Char.isDigit
      let rest3 := rest2.dropWhile Char.isDigit
      if fracDigits.isEmpty then none
      else
        let fr : ℚ := (natOfDigits fracDigits : ℚ) / ((10 : ℚ) ^ fracDigits.length)
        some (if neg then -(ip + fr) else ip + fr, rest3)
    | _ => some (if neg then -ip else ip, rest1)

mutual

/-- Fuel-indexed JSON value parser (the core of the `json.loads` model). -/
def parseVal : ℕ → List Char → Option (JVal × List Char)
  | 0, _ => none
  | fuel + 1, cs =>
    match skipWs cs with
    | [] => none
    | c :: rest =>
      if c = 'n' then
        match rest with
        | 'u' :: 'l' :: 'l' :: r => some (.null, r)
        | _ => none
      else if c = 't' then
        match rest with
        | 'r' :: 'u' :: 'e' :: r => some (.bool true, r)
        | _ => none
      else if c = 'f' then
        match rest with
        | 'a' :: 'l' :: 's' :: 'e' :: r => some (.bool false, r)
        | _ => none
      else if c = '"' then
        (parseStrAux rest).map (fun p => (.str (String.mk p.1), p.2))
      else if c = '[' then
        match skipWs rest with
        | ']' :: r => some (.arr [], r)
        | _ => (parseItems fuel rest).map (fun p => (.arr p.1, p.2))
      else if c = '{' then
        match skipWs rest with
        | '}' :: r => some (.obj [], r)
        | _ =>
          (parseFields fuel rest).map
            (fun p => (.obj (p.1.foldl (fun acc kv => pyDictInsert acc kv.1 kv.2) []), p.2))
      else
        (parseNumber (c :: rest)).map (fun p => (.num p.1, p.2))

/-- Comma-separated JSON array items followed by the closing bracket. -/
def parseItems : ℕ → List Char → Option (List JVal × List Char)
  | 0, _ => none
  | fuel + 1, cs => do
    let (v, r) ← parseVal fuel cs
    match skipWs r with
    | ',' :: r2 => do
      let (vs, r3) ← parseItems fuel r2
      some (v :: vs, r3)
    | ']' :: r2 => some ([v], r2)
    | _ => none

/-- Comma-separated JSON object members followed by the closing brace. -/
def parseFields : ℕ → List Char → Option (List (String × JVal) × List Char)
  | 0, _ => none
  | fuel + 1, cs =>
    match skipWs cs with
    | '"' :: rest => do
      let (k, r) ← parseStrAux rest
      match skipWs r with
      | ':' :: r2 => do
        let (v, r3) ← parseVal fuel r2
        match skipWs r3 with
        | ',' :: r4 => do
          let (fs, r5) ← parseFields fuel r4
          some ((String.mk k, v) :: fs, r5)
        | '}' :: r4 => some ([(String.mk k, v)], r4)
        | _ => none
      | _ => none
    | _ => none

end

/-- Model of Python `json.loads`: parse one document and require only
whitespace after it (Python raises `JSONDecodeError` on trailing data, which
callers translate to `none` here). -/
def loads (s : String) : Option JVal :=
  match parseVal (2 * s.length + 4) s.data with
  | some (v, rest) => if (skipWs rest).isEmpty then some v else none
  | none => none

/-- Escape a character for the `json.dumps` model. -/
def escChar (c : Char) : List Char :=
  if c = '"' then ['\\', '"']
  else if c = '\\' then ['\\', '\\']
  else [c]

/-- Escaped body of a dumped JSON string. -/
def escapeStr (s : String) : String :=
  String.mk (s.data.foldr (fun c acc => escChar c ++ acc) [])

/-- Rendering of a number by `json.dumps` / `str`.  Integers print exactly as
in Python; the non-integral rendering is a model artefact (no embedded value
whose printed form matters is non-integral). -/
def dumpNum (q : ℚ) : String :=
  if q.den = 1 then toString q.num
  else toString q.num ++ "/" ++ toString q.den

mutual

/-- Model of Python `json.dumps` with its default separators. -/
def dumpVal : JVal → String
  | .null => "null"
  | .bool true => "true"
  | .bool false => "false"
  | .num q => dumpNum q
  | .str s => "\"" ++ escapeStr s ++ "\""
  | .arr xs => "[" ++ dumpItems xs ++ "]"
  | .obj fs => "\x7b" ++ dumpFields fs ++ "\x7d"

/-- Dumped array items, comma-separated. -/
def dumpItems : List JVal → String
  | [] => ""
  | [x] => dumpVal x
  | x :: y :: xs => dumpVal x ++ ", " ++ dumpItems (y :: xs)

/-- Dumped object members, comma-separated. -/
def dumpFields : List (String × JVal) → String
  | [] => ""
  | [(k, v)] => "\"" ++ escapeStr k ++ "\": " ++ dumpVal v
  | (k, v) :: f :: fs =>
    "\"" ++ escapeStr k ++ "\": " ++ dumpVal v ++ ", " ++ dumpFields (f :: fs)

end

/-- Python `str()` on the JSON-shaped primitives (`str` is returned verbatim,
`None`/`True`/`False` print the Python way).  Containers fall back to their
dumped form; in the embedded code `str()` reaches a container only inside
`str(v.inputs)` of `_create_report`, whose result feeds a construction that
always raises, so the container rendering never matters. -/
def pyStr : JVal → String
  | .str s => s
  | .null => "None"
  | .bool true => "True"
  | .bool false => "False"
  | .num q => dumpNum q
  | .arr xs => dumpVal (.arr xs)
  | .obj fs => dumpVal (.obj fs)

/-- Numeric coercion used by Python `sum`: numbers are themselves, booleans
coerce to 0/1 and everything else raises `TypeError`. -/
def asPyNumber : JVal → Option ℚ
  | .num q => some q
  | .bool b => some (if b then 1 else 0)
  | _ => none

/-- Does `pat` occur at the head of `s`? -/
def headMatches : List Char → List Char → Bool
  | [], _ => true
  | _ :: _, [] => false
  | p :: ps, c :: cs => p = c && headMatches ps cs

/-- Python `str.find(pat)`: index of the first occurrence of `pat` in `s`
(`none` models the `-1` result). -/
def strFind (pat : List Char) : List Char → Option ℕ
  | [] => if pat.isEmpty then some 0 else none
  | c :: cs =>
    if headMatches pat (c :: cs) then some 0
    else (strFind pat cs).map (· + 1)

/-- The characters Python `str.strip()` removes. -/
def isPyWs (c : Char) : Bool :=
  c = ' ' || c = '\t' || c = '\n' || c = '\r' || c = '\x0b' || c = '\x0c'

/-- Python `str.strip()`. -/
def pyStrip (s : String) : String :=
  String.mk (((s.data.dropWhile isPyWs).reverse.dropWhile isPyWs).reverse)

/-- Index of the first occurrence of a character. -/
def firstIdxOf (c : Char) : List Char → Option ℕ
  | [] => none
  | d :: ds => if d = c then some 0 else (firstIdxOf c ds).map (· + 1)

/-- Index of the last occurrence of a character. -/
def lastIdxOf (c : Char) (cs : List Char) : Option ℕ :=
  (firstIdxOf c cs.reverse).map (fun k => cs.length - 1 - k)

/-- Model of `re.search(r'\x7b[\s\S]*\x7d', s)`: the leftmost-longest match
runs from the first brace that is followed by a closing brace to the last
closing brace of the whole string.  Returns the matched group. -/
def extractBraces (s : String) : Option String :=
  let cs := s.data
  match firstIdxOf '{' cs, lastIdxOf '}' cs with
  | some i, some j =>
    if i < j then some (String.mk ((cs.drop i).take (j - i + 1))) else none
  | _, _ => none

namespace BaseAgent

/-- A tool invocation requested by the model
(`psx.agents.llm.ToolCall`). -/
structure ToolCall where
  id : String
  name : String
  arguments : List (String × JVal)
  deriving DecidableEq

/-- A model reply (`psx.agents.llm.LLMResponse`; `finish_reason` and `usage`
play no role in the run-loop). -/
structure LLMResponse where
  content : String
  tool_calls : List ToolCall
  deriving DecidableEq

/-- The `has_tool_calls` property of `LLMResponse`. -/
def LLMResponse.has_tool_calls (r : LLMResponse) : Bool :=
  r.tool_calls.length > 0

/-- A conversation turn.  Both wire protocols produce exactly these three
turn kinds (`llm.py`: plain user turns, `format_assistant_message_with_tool_calls`
and `format_tool_result_message`). -/
inductive Message where
  | user (content : String)
  | assistantToolCalls (content : String) (tool_calls : List ToolCall)
  | toolResult (tool_call_id : String) (content : String)
  deriving DecidableEq

/-- A registered tool: its name and handler.  The handler models
`tool.function(**arguments)`: it returns a JSON-shaped value or raises
(`.error msg` models a raised exception with message `msg`). -/
structure Tool where
  name : String
  function : List (String × JVal) → Except String JVal

/-- `self.tools = {tool.name: tool for tool in tools}`: a dict keyed by name,
so on duplicate names the last registration wins. -/
def toolLookup (tools : List Tool) (n : String) : Option Tool :=
  tools.reverse.find? (fun t => t.name == n)

/-- Conversion of a successful tool result to the string fed back to the
model: dicts and lists are JSON-dumped, other values go through `str()`. -/
def toolResultString (result : JVal) : String :=
  match result with
  | .obj _ => dumpVal result
  | .arr _ => dumpVal result
  | _ => pyStr result

/-- `BaseAgent._execute_tool`: unknown names and raising handlers become a
JSON error payload, a successful result is stringified. -/
def execute_tool (tools : List Tool) (tc : ToolCall) : String :=
  match toolLookup tools tc.name with
  | none => dumpVal (.obj [("error", .str ("Unknown tool: " ++ tc.name))])
  | some tool =>
    match tool.function tc.arguments with
    | .ok result => toolResultString result
    | .error e => dumpVal (.obj [("error", .str e)])

/-- `BaseAgent._format_context`: dict values are JSON-dumped, other values go
through `str()` (the `to_context_string` duck-typing hook does not apply to
JSON-shaped values). -/
def format_context (context : List (String × JVal)) : String :=
  String.intercalate "\n\n"
    (context.map (fun p =>
      match p.2 with
      | .obj _ => p.1 ++ ": " ++ dumpVal p.2
      | v => p.1 ++ ": " ++ pyStr v))

/-- The fenced slice of `BaseAgent._parse_output`: when the text carries a
```json fence, the stripped substring between the fence markers (when the
closing fence is missing, Python's `find` returns `-1` and the slice stops
one character before the end of the text). -/
def fencedSlice (content : String) : Option String :=
  let cs := content.data
  match strFind "```json".data cs with
  | some i =>
    let start := i + 7
    let stop : ℕ :=
      match strFind "```".data (cs.drop start) with
      | some j => start + j
      | none => cs.length - 1
    some (pyStrip (String.mk ((cs.drop start).take (stop - start))))
  | none => none

/-- `BaseAgent._parse_output`: if the text carries a fenced ```json block,
load the fenced slice; otherwise, if the stripped text starts with a brace,
load the whole text; any failure falls back to the raw-text wrapper. -/
def parse_output (content : String) : JVal :=
  match fencedSlice content with
  | some json_str =>
    match loads json_str with
    | some v => v
    | none => .obj [("output", .str content)]
  | none =>
    if (pyStrip content).data.take 1 = ['{'] then
      match loads content with
      | some v => v
      | none => .obj [("output", .str content)]
    else .obj [("output", .str content)]

/-- Python errors the embedding distinguishes: the unbound `response` read
(`NameError`/`UnboundLocalError`), dataclass-construction and iteration
`TypeError`s, missing-attribute errors, and propagated provider exceptions. -/
inductive PyErr where
  | nameError
  | typeError
  | attributeError
  | exception (msg : String)
  deriving DecidableEq

/-- The diagnostic record the run-loop returns when the iteration budget is
exhausted. -/
def exhaustedRecord (lastContent : String) : JVal :=
  .obj [("error", .str "Max iterations reached"),
        ("partial_output", .str lastContent)]

/-- The `while` loop of `BaseAgent.run`.  `fuel` is the number of remaining
iterations, `last` the content of the previous reply (`none` before the first
round, modelling the unbound local `response`).  The second component counts
model round-trips. -/
def runAux (llm : List Message → LLMResponse) (tools : List Tool) :
    ℕ → List Message → Option String → Except PyErr JVal × ℕ
  | 0, _, last =>
    (match last with
     | some c => .ok (exhaustedRecord c)
     | none => .error .nameError, 0)
  | fuel + 1, msgs, _ =>
    let response := llm msgs
    if response.has_tool_calls then
      let msgs2 := msgs ++ Message.assistantToolCalls response.content response.tool_calls ::
        response.tool_calls.map (fun tc => Message.toolResult tc.id (execute_tool tools tc))
      let r := runAux llm tools fuel msgs2 (some response.content)
      (r.1, r.2 + 1)
    else
      (.ok (parse_output response.content), 1)

/-- The conversation growth of one tool round: the assistant turn carrying
the requested calls followed by one tool-result turn per call, in the order
the reply gave them. -/
def stepConv (llm : List Message → LLMResponse) (tools : List Tool)
    (msgs : List Message) : List Message :=
  msgs ++ Message.assistantToolCalls (llm msgs).content (llm msgs).tool_calls ::
    (llm msgs).tool_calls.map (fun tc => Message.toolResult tc.id (execute_tool tools tc))

/-- `BaseAgent.run`: seed the conversation with the optional context turn
(skipped for a falsy context dict) and the task turn, then iterate.  The
model is an oracle mapping the conversation so far to a reply. -/
def run (max_iterations : ℤ) (llm : List Message → LLMResponse)
    (tools : List Tool) (context : Option (List (String × JVal)))
    (task : String) : Except PyErr JVal × ℕ :=
  let seed :=
    (match context with
     | some ctx =>
       if ctx.isEmpty then [] else [Message.user ("Context:\n" ++ format_context ctx)]
     | none => []) ++ [Message.user task]
  runAux llm tools max_iterations.toNat seed none

end BaseAgent

/-! Schemas (`psx/agents/schemas.py`).  Python does not enforce the dataclass
field annotations, so fields that receive unvalidated `dict.get` results are
embedded as `JVal`.  `generated_at`/`started_at` (wall-clock timestamps) are
outside the embedding. -/

/-- `schemas.ValuationDetail`. -/
structure ValuationDetail where
  method : JVal
  value : JVal
  inputs : JVal := .obj []
  notes : JVal := .null
  deriving DecidableEq

/-- `schemas.PeerComparison`. -/
structure PeerComparison where
  symbol : JVal
  name : JVal := .null
  price : JVal := .null
  pe_ratio : JVal := .null
  pb_ratio : JVal := .null
  dividend_yield : JVal := .null
  market_cap : JVal := .null
  roe : JVal := .null
  deriving DecidableEq

/-- `PeerComparison.to_dict`: the fields in declaration order, dropping the
`None`-valued ones. -/
def PeerComparison.to_dict (p : PeerComparison) : JVal :=
  .obj (([("symbol", p.symbol), ("name", p.name), ("price", p.price),
          ("pe_ratio", p.pe_ratio), ("pb_ratio", p.pb_ratio),
          ("dividend_yield", p.dividend_yield), ("market_cap", p.market_cap),
          ("roe", p.roe)]).filter (fun kv => kv.2 ≠ JVal.null))

/-- `schemas.AnalystOutput`.  `recommendation` is a `String` because the
shaping step always normalizes it into the five-value vocabulary. -/
structure AnalystOutput where
  symbol : JVal
  health_score : JVal := .num 0
  valuations : List ValuationDetail := []
  fair_value : JVal := .null
  current_price : JVal := .null
  margin_of_safety : JVal := .null
  red_flags : JVal := .arr []
  strengths : JVal := .arr []
  peer_comparison : List PeerComparison := []
  recommendation : String := "HOLD"
  confidence : JVal := .num (1/2)
  reasoning : JVal := .str ""
  deriving DecidableEq

/-- The fields of `schemas.CompanyData` that cross the supervisor dispatch
boundary (empty string models a falsy/absent value). -/
structure CompanyRec where
  name : String
  description : String
  deriving DecidableEq

/-- The fields of `schemas.DataAgentOutput` that the supervisor dispatch step
reads; the remaining fields never cross the supervisor boundary.  Peer
snapshots are carried dict-shaped. -/
structure DataOut where
  symbol : String
  company : Option CompanyRec := none
  sector : Option String := none
  peer_data : List JVal := []
  sector_averages : Option JVal := none
  deriving DecidableEq

/-- `schemas.AnalysisState` (minus the wall-clock `started_at`).  The
per-symbol maps are insertion-ordered dicts. `ResearchOutput` values are
embedded opaquely as `JVal`: no supervisor code path reads their fields. -/
structure AnalysisState where
  query : String
  symbols : List String := []
  data : List (String × DataOut) := []
  research : List (String × JVal) := []
  analysis : List (String × AnalystOutput) := []
  iteration : ℕ := 0
  max_iterations : ℕ := 10
  errors : List String := []
  deriving DecidableEq

/-- `schemas.AnalysisReport` — the dataclass as `schemas.py` declares it:
`summary` is required and there are no report-section fields
(`business_overview`, `valuation_table`, ...). -/
structure AnalysisReport where
  query : String
  symbols : List String
  summary : String
  recommendation : JVal
  confidence : JVal
  data : List (String × DataOut) := []
  research : List (String × JVal) := []
  analysis : List (String × AnalystOutput) := []
  key_findings : List String := []
  risks : List String := []
  deriving DecidableEq

/-- The parameter names accepted by the `AnalysisReport` dataclass
constructor (its fields, `schemas.py` lines 357-371). -/
def analysisReportFieldNames : List String :=
  ["query", "symbols", "summary", "recommendation", "confidence", "data",
   "research", "analysis", "key_findings", "risks", "generated_at"]

/-- The `AnalysisReport` fields without a default value: they must be passed
at every construction site. -/
def analysisReportRequired : List String :=
  ["query", "symbols", "summary", "recommendation", "confidence"]

/-- Whether a keyword-argument dataclass call succeeds: every passed name
must be a declared field and every required field must be passed; otherwise
Python raises `TypeError`. -/
def dataclassCallOk (fields required passed : List String) : Bool :=
  passed.all fields.contains && required.all passed.contains

/-- The keyword-argument names `SupervisorAgent._create_report` passes to the
`AnalysisReport` constructor (`supervisor.py` lines 459-491). -/
def createReportKwargNames : List String :=
  ["query", "symbols", "recommendation", "confidence", "data", "research",
   "analysis", "business_overview", "industry_context", "ownership_structure",
   "management_notes", "financial_snapshot", "valuation_table", "fair_value",
   "margin_of_safety", "peer_comparison_table", "relative_position",
   "strengths", "risks", "recent_developments", "reasoning", "entry_price",
   "target_price", "stop_loss"]

namespace AnalystAgent

/-- Lookup in a dict-shaped field list (embedded dicts have unique keys, so
first-match lookup agrees with Python). -/
def fget (l : List (String × JVal)) (k : String) : Option JVal :=
  (l.find? (fun p => p.1 == k)).map (fun p => p.2)

/-- Lookup with default (`dict.get(k, dflt)`). -/
def fgetD (l : List (String × JVal)) (k : String) (dflt : JVal) : JVal :=
  (fget l k).getD dflt

/-- Python `for x in v`: lists iterate their elements, strings their
characters, dicts their keys; other values raise `TypeError`. -/
def pyIterate : JVal → Except BaseAgent.PyErr (List JVal)
  | .arr xs => .ok xs
  | .str s => .ok (s.data.map (fun c => .str (String.mk [c])))
  | .obj fs => .ok (fs.map (fun p => JVal.str p.1))
  | _ => .error .typeError

/-- Python `x.get`: only dicts have the attribute; anything else raises
`AttributeError`. -/
def pyGetAttrDict : JVal → Except BaseAgent.PyErr (List (String × JVal))
  | .obj fs => .ok fs
  | _ => .error .attributeError

/-- A sequential `for`-append loop over a list: each element is processed in
order and the first raised exception aborts the loop. -/
def mapExcept {α β : Type} (f : α → Except BaseAgent.PyErr β) :
    List α → Except BaseAgent.PyErr (List β)
  | [] => .ok []
  | x :: xs => do
    let y ← f x
    let ys ← mapExcept f xs
    .ok (y :: ys)

/-- First step of `AnalystAgent._parse_to_output`: when the dict has a string
under `"output"`, re-extract a brace-delimited JSON document from it and
replace the dict on success (a parse failure leaves the dict unchanged). -/
def rewrapOutput (result : List (String × JVal)) : List (String × JVal) :=
  match fget result "output" with
  | some (.str s) =>
    match extractBraces s with
    | some g =>
      match loads g with
      | some (.obj fs) => fs
      | some _ => result
      | none => result
    | none => result
  | _ => result

/-- The recommendation normalization of `_parse_to_output`: a value outside
the five-string vocabulary (including any non-string) is forced to HOLD. -/
def normalizeRecommendation (v : JVal) : String :=
  match v with
  | .str s =>
    if ["STRONG_BUY", "BUY", "HOLD", "SELL", "STRONG_SELL"].contains s then s
    else "HOLD"
  | _ => "HOLD"

/-- Is the value a dict? -/
def isDictVal : JVal → Bool
  | .obj _ => true
  | _ => false

/-- Is the value a list whose entries are all dicts (the only `"valuations"`
shape `_parse_to_output` survives)? -/
def listOfDicts : JVal → Bool
  | .arr xs => xs.all isDictVal
  | _ => false

/-- Shape guard for the `"valuations"` entry: absent, or a list of dicts. -/
def valuationsShapeOk (result : List (String × JVal)) : Bool :=
  match fget result "valuations" with
  | none => true
  | some v => listOfDicts v

/-- Shape guard for the `"peer_comparison"` entry: when it is a list, its
entries are all dicts (non-lists are skipped by the `isinstance` check). -/
def peersShapeOk (result : List (String × JVal)) : Bool :=
  match fget result "peer_comparison" with
  | some (.arr ps) => ps.all isDictVal
  | _ => true

/-- One iteration of the valuations loop of `_parse_to_output`:
`v.get(...)` per field (non-dict elements raise `AttributeError`). -/
def mkValuation (v : JVal) : Except BaseAgent.PyErr ValuationDetail := do
  let d ← pyGetAttrDict v
  pure (ValuationDetail.mk (fgetD d "method" (.str "Unknown"))
    (fgetD d "value" (.num 0)) (fgetD d "inputs" (.obj []))
    (fgetD d "notes" .null))

/-- One iteration of the peer-comparison loop: `p.get(...)` per field (the
fields past `pe_ratio` keep their dataclass `None` defaults). -/
def mkPeer (p : JVal) : Except BaseAgent.PyErr PeerComparison := do
  let d ← pyGetAttrDict p
  pure (PeerComparison.mk (fgetD d "symbol" (.str ""))
    (fgetD d "name" .null) (fgetD d "price" .null)
    (fgetD d "pe_ratio" .null) .null .null .null .null)

/-- `AnalystAgent._parse_to_output` (`analyst_agent.py` lines 520-573):
rewrap a nested `"output"` payload, coerce the valuation and peer lists,
normalize the recommendation into the five-value vocabulary, and default
every missing field.  Iterating a non-iterable `"valuations"` value raises
`TypeError`, and non-dict elements raise `AttributeError` at `.get`, exactly
as in Python. -/
def parse_to_output (result0 : List (String × JVal)) :
    Except BaseAgent.PyErr AnalystOutput := do
  let result := rewrapOutput result0
  let vsItems ← pyIterate (fgetD result "valuations" (.arr []))
  let valuations ← mapExcept mkValuation vsItems
  let peer_comparison ←
    match fget result "peer_comparison" with
    | some (.arr ps) => mapExcept mkPeer ps
    | _ => pure []
  let recommendation := normalizeRecommendation (fgetD result "recommendation" (.str "HOLD"))
  pure { symbol := fgetD result "symbol" (.str "UNKNOWN"),
         health_score := fgetD result "health_score" (.num 50),
         valuations := valuations,
         fair_value := fgetD result "fair_value" .null,
         current_price := fgetD result "current_price" .null,
         margin_of_safety := fgetD result "margin_of_safety" .null,
         red_flags := fgetD result "red_flags" (.arr []),
         strengths := fgetD result "strengths" (.arr []),
         peer_comparison := peer_comparison,
         recommendation := recommendation,
         confidence := fgetD result "confidence" (.num (1/2)),
         reasoning := fgetD result "reasoning" (.str "") }

end AnalystAgent

namespace Supervisor

/-- Word characters of the regex `\b([A-Z]{3,6})\b` context (ASCII `\w`). -/
def isWordChar (c : Char) : Bool :=
  c.isAlpha || c.isDigit || c = '_'

/-- Uppercase ASCII letter. -/
def isUpperAZ (c : Char) : Bool :=
  'A' ≤ c && c ≤ 'Z'

/-- Accumulator pass collecting maximal word-character runs (the accumulator
holds the current run reversed). -/
def wordRunsAux : List Char → List Char → List (List Char)
  | [], acc => if acc.isEmpty then [] else [acc.reverse]
  | c :: cs, acc =>
    if isWordChar c then wordRunsAux cs (c :: acc)
    else if acc.isEmpty then wordRunsAux cs []
    else acc.reverse :: wordRunsAux cs []

/-- Maximal runs of word characters.  `\b` boundaries of the symbol regex
fall exactly at the edges of these runs. -/
def wordRuns (cs : List Char) : List (List Char) :=
  wordRunsAux cs []

/-- The stop-word set of `SupervisorAgent._extract_symbols`. -/
def STOP_WORDS : List String :=
  ["THE", "AND", "FOR", "BUY", "SELL", "HOLD", "STOCK", "SHOULD"]

/-- Order-preserving de-duplication (`list(dict.fromkeys(...))`). -/
def dedupKeepFirst (seen : List String) : List String → List String
  | [] => []
  | x :: xs =>
    if seen.contains x then dedupKeepFirst seen xs
    else x :: dedupKeepFirst (x :: seen) xs

/-- `SupervisorAgent._extract_symbols`: uppercase the query, find the
`\b([A-Z]{3,6})\b` matches (all-letter word runs of length 3-6), drop the
stop words, and de-duplicate preserving order. -/
def extract_symbols (query : String) : List String :=
  let up := query.data.map Char.toUpper
  let ms := (wordRuns up).filter
    (fun r => r.all isUpperAZ && decide (3 ≤ r.length) && decide (r.length ≤ 6))
  dedupKeepFirst [] ((ms.map (fun r => String.mk r)).filter
    (fun m => !STOP_WORDS.contains m))

/-- Context dict passed to `ResearchAgent.run` by the dispatch step: the
optional `"data"` and `"sector"` entries. -/
structure ResearchCtx where
  data : Option DataOut := none
  sector : Option String := none
  deriving DecidableEq

/-- Context dict passed to `AnalystAgent.run` by the dispatch step. -/
structure AnalystCtx where
  data : Option DataOut := none
  peer_data : Option (List JVal) := none
  sector_averages : Option JVal := none
  research : Option JVal := none
  deriving DecidableEq

/-- The supervisor's external collaborators, as oracles ranging over all
behaviours.  `route` is the routing chat of `_plan_next_action` and `synth`
the synthesis chat of `_create_report`; both are functions of the state,
which determines the prompt text they receive, and `.error` models a raised
provider exception.  `runData`/`runResearch`/`runAnalyst` are the specialized
agents' complete `run` calls (their own run-loop plus shaping); `.error e`
models the call raising an exception whose `str()` is `e`. -/
structure Oracle where
  route : AnalysisState → Except String String
  runData : String → Except String DataOut
  runResearch : String → ResearchCtx → Except String JVal
  runAnalyst : String → AnalystCtx → Except String AnalystOutput
  synth : AnalysisState → Except String String

/-- The parse-failure fallback of `_plan_next_action`: synthesize when any
data has been collected, else fetch data for the first symbol, else done. -/
def planFallback (state : AnalysisState) : JVal :=
  if !state.data.isEmpty then .obj [("action", .str "synthesize")]
  else
    match state.symbols with
    | s :: _ =>
      .obj [("action", .str "call_agent"), ("agent", .str "data"),
            ("symbols", .arr [.str s]), ("task", .str ("Get data for " ++ s))]
    | [] => .obj [("action", .str "done")]

/-- `SupervisorAgent._plan_next_action`: ask the routing model, extract a
brace-delimited JSON document from the reply, and fall back on parse
failure.  A raised routing-chat exception propagates (it is not caught). -/
def plan_next_action (O : Oracle) (state : AnalysisState) :
    Except BaseAgent.PyErr JVal :=
  match O.route state with
  | .error e => .error (.exception e)
  | .ok content =>
    .ok (match extractBraces content with
      | some g =>
        match loads g with
        | some v => v
        | none => planFallback state
      | none => planFallback state)

/-- Effective task string: `task or default` (a falsy task value selects the
default; a truthy non-string is rendered through `str`, a modelling of how it
would end up inside the agent's prompt). -/
def effTask (taskVal : JVal) (dflt : String) : String :=
  if pyTruthy taskVal then pyStr taskVal else dflt

/-- Entries of the symbols argument are state-map keys; the embedded maps
are keyed by strings, so non-string entries are rendered through `str`. -/
def symAsString : JVal → String
  | .str s => s
  | v => pyStr v

/-- The `symbols = action.get("symbols", state.symbols)` binding followed by
`for symbol in symbols`: absent key falls back to the state's symbols, a list
iterates its entries, a string its characters, a dict its keys, and any other
value raises `TypeError` at the `for` (outside the per-symbol `try`). -/
def getSymbolsArg (action : JVal) (fallback : List String) :
    Except BaseAgent.PyErr (List String) :=
  match jget action "symbols" with
  | none => .ok fallback
  | some (.arr xs) => .ok (xs.map symAsString)
  | some (.str s) => .ok (s.data.map (fun c => String.mk [c]))
  | some (.obj fs) => .ok (fs.map (fun p => p.1))
  | some _ => .error .typeError

/-- One iteration of the per-symbol loop of
`SupervisorAgent._execute_agent_call`: dispatch on the agent type, build the
context from the current state, store a successful result keyed by the
symbol, and turn a raised agent exception into an error-log entry.  An
unrecognized agent type matches no branch and does nothing.  The second
component counts agent invocations. -/
def dispatchSymbol (O : Oracle) (agent_type : JVal) (taskVal : JVal)
    (acc : AnalysisState × ℕ) (symbol : String) : AnalysisState × ℕ :=
  let st := acc.1
  let n := acc.2
  if agent_type = JVal.str "data" then
    match O.runData (effTask taskVal ("Get data for " ++ symbol)) with
    | .ok result => ({ st with data := pyDictInsert st.data symbol result }, n + 1)
    | .error e =>
      ({ st with errors := st.errors ++ ["data failed for " ++ symbol ++ ": " ++ e] }, n + 1)
  else if agent_type = JVal.str "research" then
    let dOpt := (st.data.find? (fun p => p.1 == symbol)).map (fun p => p.2)
    let company_name :=
      match dOpt with
      | some d =>
        match d.company with
        | some c =>
          if c.name ≠ "" then c.name
          else if c.description ≠ "" then
            if c.description.length > 100 then
              symbol ++ " (" ++ c.description.take 100 ++ "...)"
            else symbol ++ " (" ++ c.description ++ ")"
          else symbol
        | none => symbol
      | none => symbol
    let ctx : ResearchCtx :=
      { data := dOpt,
        sector :=
          match dOpt with
          | some d =>
            match d.sector with
            | some s => if s ≠ "" then some s else none
            | none => none
          | none => none }
    let research_task := effTask taskVal
      ("Research news and reports for " ++ company_name ++ " (PSX symbol: " ++ symbol ++ ")")
    match O.runResearch research_task ctx with
    | .ok result => ({ st with research := pyDictInsert st.research symbol result }, n + 1)
    | .error e =>
      ({ st with errors := st.errors ++ ["research failed for " ++ symbol ++ ": " ++ e] }, n + 1)
  else if agent_type = JVal.str "analyst" then
    let dOpt := (st.data.find? (fun p => p.1 == symbol)).map (fun p => p.2)
    let ctx : AnalystCtx :=
      { data := dOpt,
        peer_data :=
          match dOpt with
          | some d => if d.peer_data.isEmpty then none else some d.peer_data
          | none => none,
        sector_averages :=
          match dOpt with
          | some d =>
            match d.sector_averages with
            | some v => if pyTruthy v then some v else none
            | none => none
          | none => none,
        research := (st.research.find? (fun p => p.1 == symbol)).map (fun p => p.2) }
    match O.runAnalyst
        (effTask taskVal ("Analyze " ++ symbol ++ " and compare with sector peers")) ctx with
    | .ok result => ({ st with analysis := pyDictInsert st.analysis symbol result }, n + 1)
    | .error e =>
      ({ st with errors := st.errors ++ ["analyst failed for " ++ symbol ++ ": " ++ e] }, n + 1)
  else (st, n)

/-- `SupervisorAgent._execute_agent_call`: read agent type, task and target
symbols from the action dict, then run the per-symbol loop.  Each symbol's
failure is isolated by the per-symbol `try`; only a non-iterable symbols
value can raise (before the loop). -/
def execute_agent_call (O : Oracle) (state : AnalysisState) (action : JVal) :
    Except BaseAgent.PyErr (AnalysisState × ℕ) := do
  let agent_type := jgetD action "agent" (.str "")
  let taskVal := jgetD action "task" (.str "")
  let symbols ← getSymbolsArg action state.symbols
  .ok (symbols.foldl (dispatchSymbol O agent_type taskVal) (state, 0))

/-- Keys of `collections.Counter` built from a list: first-occurrence
order. -/
def counterKeys (l : List String) : List String :=
  dedupKeepFirst [] l

/-- `Counter(l).most_common(1)[0][0]`: the key with the greatest count;
`most_common`'s sort is stable, so ties go to the earlier (first-seen)
key. -/
def mostCommon (l : List String) : Option String :=
  (counterKeys l).foldl
    (fun best k =>
      match best with
      | none => some k
      | some b => if l.count k > l.count b then some k else best)
    none

/-- Python `sum()` over JSON-shaped values (`TypeError` on non-numbers,
booleans coerce). -/
def pySum (l : List JVal) : Except BaseAgent.PyErr ℚ :=
  l.foldlM
    (fun acc v =>
      match asPyNumber v with
      | some q => Except.ok (acc + q)
      | none => Except.error BaseAgent.PyErr.typeError)
    0

/-- The recommendation-aggregation step of `_create_report`
(`supervisor.py` lines 376-398): with at least one analyst output collected,
the recommendation is `Counter(...).most_common(1)[0][0]` over the per-symbol
recommendations and the confidence is their arithmetic mean (a non-numeric
confidence value makes `sum` raise `TypeError`); with none, both fall back to
the synthesis action dict's entries. -/
def aggregateRecommendation (analysis : List (String × AnalystOutput))
    (synthesis : JVal) : Except BaseAgent.PyErr (JVal × JVal) := do
  let recommendations := analysis.map (fun p => p.2.recommendation)
  let confidences := analysis.map (fun p => p.2.confidence)
  if recommendations.isEmpty then
    pure (jgetD synthesis "recommendation" (.str "HOLD"),
      jgetD synthesis "confidence" (.num (1/2)))
  else do
    let total ← pySum confidences
    pure (JVal.str ((mostCommon recommendations).getD "HOLD"),
      JVal.num (total / (confidences.length : ℚ)))

/-- One row of the valuation-table fallback:
`{"method": ..., "value": ..., "inputs": v.notes or str(v.inputs)}`. -/
def valRow (v : ValuationDetail) : JVal :=
  .obj [("method", v.method), ("value", v.value),
        ("inputs", if pyTruthy v.notes then v.notes else .str (pyStr v.inputs))]

/-- The `synth.get(key, []) ... append` pattern of `_create_report`: a truthy
synthesis value is kept as is; a falsy list is replaced by the rows collected
from the analyst outputs; appending to a falsy non-list raises
`AttributeError` (this runs outside the synthesis `try`). -/
def tableFallback (fromSynth : JVal) (rows : List JVal) :
    Except BaseAgent.PyErr JVal :=
  if pyTruthy fromSynth then .ok fromSynth
  else
    match fromSynth with
    | .arr _ => .ok (.arr rows)
    | v => if rows.isEmpty then .ok v else .error .attributeError

/-- `SupervisorAgent._create_report` (`supervisor.py` lines 372-491):
aggregate the analyst recommendations (mode, tie-broken by first-seen order)
and confidences (mean), call the synthesis model inside a
catch-all `try`, build the fallback tables, and finally construct
`AnalysisReport` with keyword arguments.  The construction site passes names
(`business_overview`, ...) that the dataclass does not declare and omits the
required `summary`, so it raises `TypeError`; the `.ok` branch is
unreachable and its field values are the best-effort ones. -/
def create_report (O : Oracle) (state : AnalysisState) (synthesis : JVal) :
    Except BaseAgent.PyErr AnalysisReport := do
  let outs := state.analysis.map (fun p => p.2)
  let _fair_value := outs.foldl
    (fun acc a => if pyTruthy a.fair_value then a.fair_value else acc) JVal.null
  let _margin := outs.foldl
    (fun acc a => if a.margin_of_safety ≠ JVal.null then a.margin_of_safety else acc) JVal.null
  let rc ← aggregateRecommendation state.analysis synthesis
  let synthParsed : JVal :=
    match O.synth state with
    | .error _ => .obj []
    | .ok content =>
      match extractBraces content with
      | some g => (loads g).getD (.obj [])
      | none => .obj []
  let peerRows := outs.foldl
    (fun acc a =>
      if !a.peer_comparison.isEmpty then acc ++ a.peer_comparison.map PeerComparison.to_dict
      else acc) []
  let _pct ← tableFallback (jgetD synthParsed "peer_comparison_table" (.arr [])) peerRows
  let valuationRows := outs.foldl
    (fun acc a =>
      if !a.valuations.isEmpty then acc ++ a.valuations.map valRow else acc) []
  let _vt ← tableFallback (jgetD synthParsed "valuation_table" (.arr [])) valuationRows
  if dataclassCallOk analysisReportFieldNames analysisReportRequired
      createReportKwargNames then
    .ok { query := state.query, symbols := state.symbols, summary := "",
          recommendation := rc.1, confidence := rc.2,
          data := state.data, research := state.research,
          analysis := state.analysis }
  else
    .error .typeError

/-- The early report of `analyze` when no symbols are extracted (its
construction site passes exactly valid dataclass arguments). -/
def holdReport (query : String) : AnalysisReport :=
  { query := query, symbols := [],
    summary := "Could not identify any stock symbols in the query.",
    recommendation := .str "HOLD", confidence := .num 0 }

/-- The `while state.iteration < self.max_iterations` loop of
`SupervisorAgent.analyze`: plan, then dispatch / synthesize / break; both the
`done` break, an unrecognized action's break and budget exhaustion fall
through to `_create_report(state, {"action": "synthesize"})`.  The second
component counts specialized-agent invocations. -/
def analyzeLoop (O : Oracle) : ℕ → AnalysisState → ℕ →
    Except BaseAgent.PyErr AnalysisReport × ℕ
  | 0, state, agentCalls =>
    (create_report O state (.obj [("action", .str "synthesize")]), agentCalls)
  | fuel + 1, state, agentCalls =>
    let st1 := { state with iteration := state.iteration + 1 }
    match plan_next_action O st1 with
    | .error e => (.error e, agentCalls)
    | .ok next =>
      if jget next "action" = some (.str "call_agent") then
        match execute_agent_call O st1 next with
        | .error e => (.error e, agentCalls)
        | .ok (st2, n) => analyzeLoop O fuel st2 (agentCalls + n)
      else if jget next "action" = some (.str "synthesize") then
        (create_report O st1 next, agentCalls)
      else
        (create_report O st1 (.obj [("action", .str "synthesize")]), agentCalls)

/-- `SupervisorAgent.analyze`: extract symbols, short-circuit to the
zero-confidence `HOLD` report when none are found, otherwise run the
planning loop. -/
def analyze (O : Oracle) (max_iterations : ℕ) (query : String) :
    Except BaseAgent.PyErr AnalysisReport × ℕ :=
  let symbols := extract_symbols query
  if symbols.isEmpty then (.ok (holdReport query), 0)
  else analyzeLoop O max_iterations { query := query, symbols := symbols } 0

end Supervisor

end PSX

/-! Theorems.  Each claim of the specification is settled by exactly one
theorem below (plus its witness or counterexample where required). -/

open PSX PSX.BaseAgent PSX.Supervisor PSX.AnalystAgent

/-- Claim C10: with `max_iterations <= 0` the run-loop body never executes,
no model call is made (the round-trip counter is 0), and building the
exhausted-budget record raises an unbound-variable error because it reads the
loop-local `response`; consequently the exhausted diagnostic record is never
produced for a non-positive ceiling. -/
theorem C10_run_nonpositive_ceiling (m : ℤ) (hm : m ≤ 0)
    (llm : List Message → LLMResponse) (tools : List Tool)
    (context : Option (List (String × JVal))) (task : String) :
    run m llm tools context task = (.error .nameError, 0) ∧
    ∀ c : String, (run m llm tools context task).1 ≠ .ok (exhaustedRecord c) := by
  have h0 : m.toNat = 0 := Int.toNat_of_nonpos hm
  have hrun : run m llm tools context task = (.error .nameError, 0) := by
    unfold PSX.BaseAgent.run
    rw [h0]
    rfl
  exact ⟨hrun, fun c hc => by rw [hrun] at hc; exact Except.noConfusion hc⟩

/-- Witness for C10 at the concrete ceiling `-3` with a model that would
always answer plainly. -/
theorem C10_witness :
    run (-3) (fun _ => ⟨"hello", []⟩) [] none "task" = (.error .nameError, 0) ∧
    ∀ c : String,
      (run (-3) (fun _ => ⟨"hello", []⟩) [] none "task").1 ≠ .ok (exhaustedRecord c) :=
  C10_run_nonpositive_ceiling (-3) (by decide) _ _ _ _

set_option maxHeartbeats 1600000 in
/-- Claim C5 counterexample: the query "tell me something" does NOT extract
zero symbols — the extraction uppercases the query first and "TELL" is not in
the stop-word set — so `analyze` does not short-circuit to the HOLD report:
with a routing model whose replies never parse (so the fallback dispatches
the Data agent) it invokes the Data agent and ends in the `_create_report`
`TypeError` instead of returning the early report. -/
theorem C5_counterexample :
    extract_symbols "tell me something" = ["TELL"] ∧
    analyze ⟨fun _ => .ok "", fun _ => .error "agent down",
      fun _ _ => .error "agent down", fun _ _ => .error "agent down",
      fun _ => .error "synthesis down"⟩ 1 "tell me something" =
      (.error .typeError, 1) := by
  exact ⟨by decide, by decide⟩

/-- Claim C5 as amended: symbol extraction uppercases the query and then
scans for all-letter runs of length 3-6 minus the stop words, so
"tell me something" yields ["TELL"]; for a query whose extracted symbol list
is empty (for example "should i buy the stock", all of whose tokens are stop
words or too short), `analyze` returns immediately the report with
`symbols=[]`, `recommendation="HOLD"`, `confidence=0.0` and performs zero
specialized-agent invocations. -/
theorem C5_amended (O : Oracle) (m : ℕ) (query : String)
    (h : extract_symbols query = []) :
    analyze O m query = (.ok (holdReport query), 0) := by
  simp [PSX.Supervisor.analyze, h]

/-- Witness for C5 as amended: "should i buy the stock" extracts no symbols
and short-circuits. -/
theorem C5_amended_witness :
    analyze ⟨fun _ => .ok "", fun _ => .error "agent down",
      fun _ _ => .error "agent down", fun _ _ => .error "agent down",
      fun _ => .error "synthesis down"⟩ 7 "should i buy the stock" =
      (.ok (holdReport "should i buy the stock"), 0) :=
  C5_amended _ 7 _ (by decide)

/-- Claim C9: when the routing reply contains no parseable JSON document
(no brace-delimited group, or a group `json.loads` rejects),
`_plan_next_action` returns the fallback action: `synthesize` if any data has
been collected; otherwise a Data-agent `call_agent` for the first symbol
(with no data collected every symbol is unresolved, so this is the first
unresolved symbol); otherwise `done`. -/
theorem C9_routing_parse_fallback (O : Oracle) (state : AnalysisState)
    (content : String) (hroute : O.route state = .ok content)
    (hparse : (extractBraces content).bind loads = none) :
    plan_next_action O state = .ok (planFallback state) ∧
    (state.data ≠ [] →
      planFallback state = .obj [("action", .str "synthesize")]) ∧
    (state.data = [] → ∀ s rest, state.symbols = s :: rest →
      planFallback state =
        .obj [("action", .str "call_agent"), ("agent", .str "data"),
              ("symbols", .arr [.str s]),
              ("task", .str ("Get data for " ++ s))]) ∧
    (state.data = [] → state.symbols = [] →
      planFallback state = .obj [("action", .str "done")]) := by
  refine ⟨?_, ?_, ?_, ?_⟩
  · unfold plan_next_action
    rw [hroute]
    cases hE : extractBraces content with
    | none => simp [hE]
    | some g =>
      have hl : loads g = none := by
        rw [hE] at hparse
        simpa using hparse
      simp [hE, hl]
  · intro hd
    have : state.data.isEmpty = false := by
      cases h : state.data with
      | nil => exact absurd h hd
      | cons a l => rfl
    simp [planFallback, this]
  · intro hd s rest hs
    simp [planFallback, hd, hs]
  · intro hd hs
    simp [planFallback, hd, hs]

/-- Witness for C9: a routing reply with no JSON, a state with collected
data, and the resulting `synthesize` fallback. -/
theorem C9_witness :
    plan_next_action
        ⟨fun _ => .ok "no json here", fun _ => .error "x", fun _ _ => .error "x",
         fun _ _ => .error "x", fun _ => .error "x"⟩
        { query := "q", symbols := ["OGDC"],
          data := [("OGDC", { symbol := "OGDC" })] } =
      .ok (planFallback
        { query := "q", symbols := ["OGDC"],
          data := [("OGDC", { symbol := "OGDC" })] }) ∧
    planFallback
        { query := "q", symbols := ["OGDC"],
          data := [("OGDC", { symbol := "OGDC" })] } =
      .obj [("action", .str "synthesize")] := by
  have h := C9_routing_parse_fallback
    ⟨fun _ => .ok "no json here", fun _ => .error "x", fun _ _ => .error "x",
     fun _ _ => .error "x", fun _ => .error "x"⟩
    { query := "q", symbols := ["OGDC"],
      data := [("OGDC", { symbol := "OGDC" })] }
    "no json here" rfl (by decide)
  exact ⟨h.1, h.2.1 (by decide)⟩

/-- Claim C4 counterexample: the text "Result: {"a": 1}" contains a single
well-formed JSON object (at index 8, as the first conjuncts witness), yet
`_parse_output` returns the raw-text wrapper, not the parsed object: with no
```json fence, extraction only tries a text that *starts* with a brace after
stripping — prose-surrounded JSON is not extracted. -/
theorem C4_counterexample :
    strFind "\x7b\"a\": 1\x7d".data "Result: \x7b\"a\": 1\x7d".data = some 8 ∧
    loads "\x7b\"a\": 1\x7d" = some (.obj [("a", .num 1)]) ∧
    parse_output "Result: \x7b\"a\": 1\x7d" =
      .obj [("output", .str "Result: \x7b\"a\": 1\x7d")] ∧
    JVal.obj [("output", .str "Result: \x7b\"a\": 1\x7d")] ≠
      JVal.obj [("a", .num 1)] := by
  decide

/-- Claim C4 as amended: `_parse_output` returns the parsed object exactly
when the JSON document is in a ```json fenced block (prose around the fence
is fine) or when the text itself is the JSON document (its stripped form
starts with the brace and the whole text loads); a JSON object surrounded by
prose without a fence falls back to the raw-text wrapper. -/
theorem C4_amended (content : String) (v : JVal) (body : String)
    (h : fencedSlice content = some body ∧ loads body = some v
       ∨ fencedSlice content = none ∧ (pyStrip content).data.take 1 = ['{'] ∧
           loads content = some v) :
    parse_output content = v := by
  unfold PSX.BaseAgent.parse_output
  rcases h with ⟨hf, hl⟩ | ⟨hf, hb, hl⟩
  · simp [hf, hl]
  · simp [hf, hb, hl]

/-- Witness for C4 as amended: a fenced JSON object surrounded by prose is
extracted. -/
theorem C4_witness :
    parse_output "Intro\n```json\n\x7b\"a\": 1\x7d\n```\nbye" =
      .obj [("a", .num 1)] :=
  C4_amended _ _ "\x7b\"a\": 1\x7d" (by decide)

/-- Binding helper: a bind whose continuation always fails, fails. -/
theorem exists_error_bind {ε α β : Type} (x : Except ε α) (f : α → Except ε β)
    (hf : ∀ a, ∃ e, f a = .error e) : ∃ e, x >>= f = .error e := by
  cases x with
  | error e => exact ⟨e, rfl⟩
  | ok a => exact hf a

/-- `_create_report` can never return a report: its construction site always
raises `TypeError` (unknown keyword arguments and the missing required
`summary`), and every earlier failure is an exception too. -/
theorem create_report_never_ok (O : Oracle) (st : AnalysisState) (syn : JVal) :
    ∃ e, create_report O st syn = .error e := by
  unfold PSX.Supervisor.create_report
  apply exists_error_bind
  intro rc
  apply exists_error_bind
  intro pct
  apply exists_error_bind
  intro vt
  have hc : dataclassCallOk analysisReportFieldNames analysisReportRequired
      createReportKwargNames = false := by decide
  simp [hc]

/-- Claim C1: contrary to the specification, `analyze` cannot return an
`AnalysisReport` for a query with extracted symbols — every path through the
planning loop ends in `_create_report`, whose `AnalysisReport(...)` call
passes keyword arguments the dataclass does not define (`business_overview`,
`valuation_table`, ...) and omits the required `summary`, raising
`TypeError`.  First conjunct: `_create_report` fails for every oracle, state
and synthesis action.  Second conjunct: the concrete failing run — the query
"Analyze OGDC" with a routing model that immediately answers
`{"action": "synthesize"}` and a healthy synthesis model — raises
`TypeError` (and invokes no agent). -/
theorem C1_analyze_always_raises :
    (∀ (O : Oracle) (st : AnalysisState) (syn : JVal),
      ∃ e, create_report O st syn = .error e) ∧
    analyze ⟨fun _ => .ok "\x7b\"action\": \"synthesize\"\x7d",
      fun _ => .error "unused", fun _ _ => .error "unused",
      fun _ _ => .error "unused", fun _ => .ok "\x7b\x7d"⟩ 5 "Analyze OGDC" =
      (.error .typeError, 0) :=
  ⟨create_report_never_ok, by decide⟩

/-- Claim C6: the aggregation step of `_create_report` does compute the mode
recommendation (ties broken by first-seen order) and the mean confidence —
for [BUY, BUY, HOLD] with confidences [0.8, 0.6, 0.4] it yields BUY and 0.6,
independently of the synthesis model by construction (the aggregation reads
no oracle) — but no final report carries these values: the report
construction that follows raises `TypeError` (the `AnalysisReport` dataclass
does not accept the passed keyword arguments), as the last conjunct shows on
the same state. -/
theorem C6_aggregation_computed_but_report_raises :
    aggregateRecommendation
        [("OGDC", { symbol := .str "OGDC", recommendation := "BUY",
                    confidence := .num (4/5) }),
         ("PPL", { symbol := .str "PPL", recommendation := "BUY",
                   confidence := .num (3/5) }),
         ("MARI", { symbol := .str "MARI", recommendation := "HOLD",
                    confidence := .num (2/5) })]
        (.obj [("action", .str "synthesize")]) =
      .ok (.str "BUY", .num ((0 + 4/5 + 3/5 + 2/5) / ((3 : ℕ) : ℚ))) ∧
    ((0 : ℚ) + 4/5 + 3/5 + 2/5) / ((3 : ℕ) : ℚ) = 3/5 ∧
    mostCommon ["BUY", "BUY", "HOLD"] = some "BUY" ∧
    mostCommon ["SELL", "BUY", "BUY", "SELL"] = some "SELL" ∧
    create_report
        ⟨fun _ => .ok "", fun _ => .error "x", fun _ _ => .error "x",
         fun _ _ => .error "x", fun _ => .error "synthesis down"⟩
        { query := "Analyze OGDC", symbols := ["OGDC"],
          analysis :=
            [("OGDC", { symbol := .str "OGDC", recommendation := "BUY",
                        confidence := .num (4/5) }),
             ("PPL", { symbol := .str "PPL", recommendation := "BUY",
                       confidence := .num (3/5) }),
             ("MARI", { symbol := .str "MARI", recommendation := "HOLD",
                        confidence := .num (2/5) })] }
        (.obj [("action", .str "synthesize")]) = .error .typeError := by
  refine ⟨rfl, by norm_num, by decide, by decide, by decide⟩

/-- Binding helper: an `ok` on the left of a bind passes its value on. -/
theorem except_bind_ok {ε α β : Type} (a : α) (f : α → Except ε β) :
    (Except.ok a : Except ε α) >>= f = f a := rfl

/-- One run-loop round with tool calls: the conversation grows by `stepConv`
and the round-trip count by one. -/
theorem runAux_succ_tools (llm : List Message → LLMResponse) (tools : List Tool)
    (fuel : ℕ) (msgs : List Message) (last : Option String)
    (h : (llm msgs).has_tool_calls = true) :
    runAux llm tools (fuel + 1) msgs last =
      ((runAux llm tools fuel (stepConv llm tools msgs) (some (llm msgs).content)).1,
       (runAux llm tools fuel (stepConv llm tools msgs) (some (llm msgs).content)).2 + 1) := by
  rw [runAux]
  rw [if_pos h]
  rfl

/-- Against a model that always requests tools, the run-loop spends its whole
budget: `fuel` round-trips and the exhausted record carrying the last
reply. -/
theorem runAux_exhausts (llm : List Message → LLMResponse) (tools : List Tool)
    (h : ∀ msgs, (llm msgs).has_tool_calls = true) :
    ∀ (fuel : ℕ) (msgs : List Message) (last : Option String), 1 ≤ fuel →
      runAux llm tools fuel msgs last =
        (.ok (exhaustedRecord (llm ((stepConv llm tools)^[fuel - 1] msgs)).content), fuel) := by
  intro fuel
  induction fuel with
  | zero => intro msgs last h1; omega
  | succ n ih =>
    intro msgs last _
    rw [runAux_succ_tools llm tools n msgs last (h msgs)]
    cases n with
    | zero => simp [runAux]
    | succ m =>
      rw [ih (stepConv llm tools msgs) (some (llm msgs).content) (by omega)]
      simp [Function.iterate_succ_apply]

/-- With at least one iteration of budget, at least one model call is
made. -/
theorem runAux_calls_pos (llm : List Message → LLMResponse) (tools : List Tool)
    (fuel : ℕ) (msgs : List Message) (last : Option String) (hf : 1 ≤ fuel) :
    1 ≤ (runAux llm tools fuel msgs last).2 := by
  cases fuel with
  | zero => omega
  | succ n =>
    by_cases hc : (llm msgs).has_tool_calls = true
    · rw [runAux_succ_tools llm tools n msgs last hc]
      omega
    · rw [runAux, if_neg hc]

/-- Claim C2: for a ceiling `N >= 1` and a model that requests a tool call in
every reply, `BaseAgent.run` performs exactly `N` model round-trips (so at
most `N`) and returns — rather than raising — the diagnostic record with an
`"error"` field and a `"partial_output"` field holding the last reply's text
(the reply to the final conversation). -/
theorem C2_iteration_ceiling (N : ℤ) (hN : 1 ≤ N)
    (llm : List Message → LLMResponse) (tools : List Tool)
    (context : Option (List (String × JVal))) (task : String)
    (h : ∀ msgs, (llm msgs).has_tool_calls = true) :
    (run N llm tools context task).2 = N.toNat ∧
    ∃ finalConv : List Message,
      run N llm tools context task =
        (.ok (.obj [("error", .str "Max iterations reached"),
                    ("partial_output", .str (llm finalConv).content)]), N.toNat) := by
  have h1 : 1 ≤ N.toNat := by omega
  unfold PSX.BaseAgent.run
  rw [runAux_exhausts llm tools h N.toNat _ none h1]
  exact ⟨rfl, ⟨_, rfl⟩⟩

/-- Witness for C2: a constant tool-requesting model against an empty
registry, with ceiling 2. -/
theorem C2_witness :
    (run 2 (fun _ => ⟨"thinking", [⟨"id1", "lookup", []⟩]⟩) [] none "task").2 = 2 ∧
    run 2 (fun _ => ⟨"thinking", [⟨"id1", "lookup", []⟩]⟩) [] none "task" =
      (.ok (.obj [("error", .str "Max iterations reached"),
                  ("partial_output", .str "thinking")]), 2) := by
  have h := C2_iteration_ceiling 2 (by decide)
    (fun _ => ⟨"thinking", [⟨"id1", "lookup", []⟩]⟩) [] none "task" (fun _ => rfl)
  obtain ⟨h1, c, hc⟩ := h
  exact ⟨h1, by simpa using hc⟩

/-- Claim C3: in a round whose reply requests tool `A` (whose handler
raises `eA`) and then tool `B` (whose handler succeeds with `vB`), the
executed results are A's JSON error payload and B's real result; the round
appends the assistant turn plus exactly these two tool-result turns in
order, and the loop proceeds to the next model call (total round-trips at
least 2 when budget remains) instead of aborting.  Unknown tool names
likewise yield a JSON error payload. -/
theorem C3_tool_isolation
    (tools : List Tool) (tA tB : Tool) (tcA tcB : ToolCall) (eA : String) (vB : JVal)
    (llm : List Message → LLMResponse) (msgs : List Message) (content : String)
    (fuel : ℕ)
    (hA : toolLookup tools tcA.name = some tA)
    (hAerr : tA.function tcA.arguments = .error eA)
    (hB : toolLookup tools tcB.name = some tB)
    (hBok : tB.function tcB.arguments = .ok vB)
    (hreply : llm msgs = ⟨content, [tcA, tcB]⟩) :
    execute_tool tools tcA = dumpVal (.obj [("error", .str eA)]) ∧
    execute_tool tools tcB = toolResultString vB ∧
    (∀ tc : ToolCall, toolLookup tools tc.name = none →
      execute_tool tools tc =
        dumpVal (.obj [("error", .str ("Unknown tool: " ++ tc.name))])) ∧
    (∀ last, runAux llm tools (fuel + 1) msgs last =
      ((runAux llm tools fuel
          (msgs ++ [Message.assistantToolCalls content [tcA, tcB],
                    Message.toolResult tcA.id (dumpVal (.obj [("error", .str eA)])),
                    Message.toolResult tcB.id (toolResultString vB)])
          (some content)).1,
       (runAux llm tools fuel
          (msgs ++ [Message.assistantToolCalls content [tcA, tcB],
                    Message.toolResult tcA.id (dumpVal (.obj [("error", .str eA)])),
                    Message.toolResult tcB.id (toolResultString vB)])
          (some content)).2 + 1)) ∧
    (1 ≤ fuel → ∀ last, 2 ≤ (runAux llm tools (fuel + 1) msgs last).2) := by
  have heA : execute_tool tools tcA = dumpVal (.obj [("error", .str eA)]) := by
    simp [execute_tool, hA, hAerr]
  have heB : execute_tool tools tcB = toolResultString vB := by
    simp [execute_tool, hB, hBok]
  have hmain : ∀ last, runAux llm tools (fuel + 1) msgs last =
      ((runAux llm tools fuel
          (msgs ++ [Message.assistantToolCalls content [tcA, tcB],
                    Message.toolResult tcA.id (dumpVal (.obj [("error", .str eA)])),
                    Message.toolResult tcB.id (toolResultString vB)])
          (some content)).1,
       (runAux llm tools fuel
          (msgs ++ [Message.assistantToolCalls content [tcA, tcB],
                    Message.toolResult tcA.id (dumpVal (.obj [("error", .str eA)])),
                    Message.toolResult tcB.id (toolResultString vB)])
          (some content)).2 + 1) := by
    intro last
    have hcalls : (llm msgs).has_tool_calls = true := by
      rw [hreply]; rfl
    rw [runAux_succ_tools llm tools fuel msgs last hcalls]
    unfold stepConv
    rw [hreply]
    simp [heA, heB]
  refine ⟨heA, heB, ?_, hmain, ?_⟩
  · intro tc hmiss
    simp [execute_tool, hmiss]
  · intro hf last
    rw [hmain last]
    have := runAux_calls_pos llm tools fuel
      (msgs ++ [Message.assistantToolCalls content [tcA, tcB],
                Message.toolResult tcA.id (dumpVal (.obj [("error", .str eA)])),
                Message.toolResult tcB.id (toolResultString vB)])
      (some content) hf
    omega

/-- Witness for C3: tool A raises, tool B returns a dict, the model requests
both in one reply. -/
theorem C3_witness :
    execute_tool [⟨"A", fun _ => .error "boom A"⟩,
                  ⟨"B", fun _ => .ok (.obj [("price", .num 100)])⟩]
        ⟨"call1", "A", []⟩ =
      dumpVal (.obj [("error", .str "boom A")]) ∧
    execute_tool [⟨"A", fun _ => .error "boom A"⟩,
                  ⟨"B", fun _ => .ok (.obj [("price", .num 100)])⟩]
        ⟨"call2", "B", []⟩ =
      toolResultString (.obj [("price", .num 100)]) ∧
    runAux (fun _ => ⟨"working", [⟨"call1", "A", []⟩, ⟨"call2", "B", []⟩]⟩)
        [⟨"A", fun _ => .error "boom A"⟩,
         ⟨"B", fun _ => .ok (.obj [("price", .num 100)])⟩]
        2 [Message.user "go"] none =
      ((runAux (fun _ => ⟨"working", [⟨"call1", "A", []⟩, ⟨"call2", "B", []⟩]⟩)
          [⟨"A", fun _ => .error "boom A"⟩,
           ⟨"B", fun _ => .ok (.obj [("price", .num 100)])⟩]
          1 ([Message.user "go"] ++
             [Message.assistantToolCalls "working" [⟨"call1", "A", []⟩, ⟨"call2", "B", []⟩],
              Message.toolResult "call1" (dumpVal (.obj [("error", .str "boom A")])),
              Message.toolResult "call2" (toolResultString (.obj [("price", .num 100)]))])
          (some "working")).1,
       (runAux (fun _ => ⟨"working", [⟨"call1", "A", []⟩, ⟨"call2", "B", []⟩]⟩)
          [⟨"A", fun _ => .error "boom A"⟩,
           ⟨"B", fun _ => .ok (.obj [("price", .num 100)])⟩]
          1 ([Message.user "go"] ++
             [Message.assistantToolCalls "working" [⟨"call1", "A", []⟩, ⟨"call2", "B", []⟩],
              Message.toolResult "call1" (dumpVal (.obj [("error", .str "boom A")])),
              Message.toolResult "call2" (toolResultString (.obj [("price", .num 100)]))])
          (some "working")).2 + 1) := by
  have h := C3_tool_isolation
    [⟨"A", fun _ => .error "boom A"⟩, ⟨"B", fun _ => .ok (.obj [("price", .num 100)])⟩]
    ⟨"A", fun _ => .error "boom A"⟩ ⟨"B", fun _ => .ok (.obj [("price", .num 100)])⟩
    ⟨"call1", "A", []⟩ ⟨"call2", "B", []⟩ "boom A" (.obj [("price", .num 100)])
    (fun _ => ⟨"working", [⟨"call1", "A", []⟩, ⟨"call2", "B", []⟩]⟩)
    [Message.user "go"] "working" 1 rfl rfl rfl rfl rfl
  exact ⟨h.1, h.2.1, h.2.2.2.1 none⟩

/-- Claim C7: dispatching a Data `call_agent` action over three symbols where
the second symbol's agent call raises leaves the other two symbols' results
in the state keyed by their symbols, appends exactly one error-log entry
naming the failed symbol and the agent type, counts all three invocations,
and returns normally (`.ok`) — the per-symbol `try` keeps one failure from
aborting the batch or the run. -/
theorem C7_partial_failure (O : Oracle) (st : AnalysisState)
    (s1 s2 s3 e : String) (r1 r3 : DataOut)
    (h13 : s1 ≠ s3)
    (hdata : st.data = []) (herr : st.errors = [])
    (h1 : O.runData ("Get data for " ++ s1) = .ok r1)
    (h2 : O.runData ("Get data for " ++ s2) = .error e)
    (h3 : O.runData ("Get data for " ++ s3) = .ok r3) :
    execute_agent_call O st
        (.obj [("action", .str "call_agent"), ("agent", .str "data"),
               ("symbols", .arr [.str s1, .str s2, .str s3]), ("task", .str "")]) =
      .ok ({ st with
               data := [(s1, r1), (s3, r3)],
               errors := ["data failed for " ++ s2 ++ ": " ++ e] }, 3) := by
  show Except.ok ([s1, s2, s3].foldl (dispatchSymbol O (JVal.str "data") (JVal.str "")) (st, 0)) = _
  simp only [List.foldl]
  simp [dispatchSymbol, effTask, pyTruthy, h1, h2, h3, hdata, herr, pyDictInsert, h13]

/-- Witness for C7: symbols AAA, BBB, CCC where only BBB's Data call
raises. -/
theorem C7_witness :
    execute_agent_call
        ⟨fun _ => .ok "",
         fun t => if t = "Get data for BBB" then .error "kaput"
                  else .ok { symbol := "snap" },
         fun _ _ => .error "x", fun _ _ => .error "x", fun _ => .error "x"⟩
        { query := "q", symbols := ["AAA", "BBB", "CCC"] }
        (.obj [("action", .str "call_agent"), ("agent", .str "data"),
               ("symbols", .arr [.str "AAA", .str "BBB", .str "CCC"]),
               ("task", .str "")]) =
      .ok ({ query := "q", symbols := ["AAA", "BBB", "CCC"],
             data := [("AAA", { symbol := "snap" }), ("CCC", { symbol := "snap" })],
             errors := ["data failed for BBB: kaput"] }, 3) := by
  have h := C7_partial_failure
    ⟨fun _ => .ok "",
     fun t => if t = "Get data for BBB" then .error "kaput"
              else .ok { symbol := "snap" },
     fun _ _ => .error "x", fun _ _ => .error "x", fun _ => .error "x"⟩
    { query := "q", symbols := ["AAA", "BBB", "CCC"] }
    "AAA" "BBB" "CCC" "kaput" { symbol := "snap" } { symbol := "snap" }
    (by decide) rfl rfl (by decide) (by decide) (by decide)
  exact h

/-- A sequential `for`-append loop over elements that all process cleanly
succeeds with some collected list. -/
theorem mapExcept_ok {α β : Type} (f : α → Except PyErr β) :
    ∀ xs : List α, (∀ x ∈ xs, ∃ y, f x = .ok y) → ∃ l, mapExcept f xs = .ok l := by
  intro xs
  induction xs with
  | nil => intro _; exact ⟨[], rfl⟩
  | cons a as ih =>
    intro h
    obtain ⟨y, hy⟩ := h a (List.mem_cons_self a as)
    obtain ⟨l, hl⟩ := ih (fun x hx => h x (List.mem_cons_of_mem a hx))
    refine ⟨y :: l, ?_⟩
    simp [mapExcept, hy, hl, except_bind_ok]

/-- The normalized recommendation always lands in the five-value
vocabulary. -/
theorem normalizeRecommendation_mem (v : JVal) :
    normalizeRecommendation v ∈ ["STRONG_BUY", "BUY", "HOLD", "SELL", "STRONG_SELL"] := by
  cases v with
  | str s =>
    simp only [normalizeRecommendation]
    by_cases h : (["STRONG_BUY", "BUY", "HOLD", "SELL", "STRONG_SELL"] : List String).contains s
    · simp only [h, if_true]
      exact List.elem_iff.mp h
    · rw [if_neg h]
      decide
  | null => decide
  | bool b => cases b <;> decide
  | num q => simp [normalizeRecommendation]
  | arr xs => simp [normalizeRecommendation]
  | obj fs => simp [normalizeRecommendation]

/-- Claim C8 counterexample: a dict whose `"valuations"` value is the number
5 makes `_parse_to_output` raise `TypeError` (`for v in 5` is not iterable),
refuting "returns an AnalystOutput without raising for every input dict". -/
theorem C8_counterexample :
    parse_to_output [("valuations", .num 5)] = .error .typeError := by
  decide

/-- Claim C8 as amended: `_parse_to_output` returns an `AnalystOutput`
without raising provided the (possibly rewrapped) dict's `"valuations"`
entry is absent or a list of dicts and its `"peer_comparison"` entry, when a
list, holds only dicts; absent fields then take their documented defaults
(symbol "UNKNOWN", health score 50, confidence 0.5, reasoning "", None for
the optional numbers) and the recommendation is forced to HOLD whenever the
supplied value is outside the five-value vocabulary.  A non-list
`"valuations"` value raises `TypeError` and a non-dict element raises
`AttributeError`, as the counterexample shows. -/
theorem C8_amended (result : List (String × JVal))
    (hv : valuationsShapeOk (rewrapOutput result) = true)
    (hp : peersShapeOk (rewrapOutput result) = true) :
    ∃ out, parse_to_output result = .ok out ∧
      out.recommendation =
        normalizeRecommendation (fgetD (rewrapOutput result) "recommendation" (.str "HOLD")) ∧
      out.recommendation ∈ ["STRONG_BUY", "BUY", "HOLD", "SELL", "STRONG_SELL"] ∧
      out.symbol = fgetD (rewrapOutput result) "symbol" (.str "UNKNOWN") ∧
      out.health_score = fgetD (rewrapOutput result) "health_score" (.num 50) ∧
      out.confidence = fgetD (rewrapOutput result) "confidence" (.num (1/2)) ∧
      out.reasoning = fgetD (rewrapOutput result) "reasoning" (.str "") ∧
      out.fair_value = fgetD (rewrapOutput result) "fair_value" .null := by
  have hval : ∃ vs, pyIterate (fgetD (rewrapOutput result) "valuations" (.arr [])) = .ok vs ∧
      ∀ x ∈ vs, isDictVal x = true := by
    unfold valuationsShapeOk at hv
    cases hfv : fget (rewrapOutput result) "valuations" with
    | none => exact ⟨[], by simp [fgetD, hfv, pyIterate], by simp⟩
    | some v =>
      rw [hfv] at hv
      cases v <;> simp [listOfDicts] at hv
      case arr xs =>
        refine ⟨xs, by simp [fgetD, hfv, pyIterate], ?_⟩
        intro x hx
        exact hv x hx
  obtain ⟨vs, hvs, hvsd⟩ := hval
  obtain ⟨l1, hl1⟩ := mapExcept_ok mkValuation vs (fun x hx => by
    have hd := hvsd x hx
    cases x <;> simp [isDictVal] at hd
    case obj fs => exact ⟨_, rfl⟩)
  have hmain : ∃ l2, parse_to_output result =
      .ok { symbol := fgetD (rewrapOutput result) "symbol" (.str "UNKNOWN"),
            health_score := fgetD (rewrapOutput result) "health_score" (.num 50),
            valuations := l1,
            fair_value := fgetD (rewrapOutput result) "fair_value" .null,
            current_price := fgetD (rewrapOutput result) "current_price" .null,
            margin_of_safety := fgetD (rewrapOutput result) "margin_of_safety" .null,
            red_flags := fgetD (rewrapOutput result) "red_flags" (.arr []),
            strengths := fgetD (rewrapOutput result) "strengths" (.arr []),
            peer_comparison := l2,
            recommendation :=
              normalizeRecommendation (fgetD (rewrapOutput result) "recommendation" (.str "HOLD")),
            confidence := fgetD (rewrapOutput result) "confidence" (.num (1/2)),
            reasoning := fgetD (rewrapOutput result) "reasoning" (.str "") } := by
    cases hfp : fget (rewrapOutput result) "peer_comparison" with
    | none =>
      exact ⟨[], by simp only [parse_to_output, hvs, hl1, hfp, except_bind_ok]; rfl⟩
    | some v =>
      cases v with
      | arr ps =>
        unfold peersShapeOk at hp
        rw [hfp] at hp
        simp only [List.all_eq_true] at hp
        obtain ⟨l2, hl2⟩ := mapExcept_ok mkPeer ps (fun x hx => by
          have hd := hp x hx
          cases x <;> simp [isDictVal] at hd
          case obj fs => exact ⟨_, rfl⟩)
        exact ⟨l2, by simp only [parse_to_output, hvs, hl1, hfp, hl2, except_bind_ok]; rfl⟩
      | null => exact ⟨[], by simp only [parse_to_output, hvs, hl1, hfp, except_bind_ok]; rfl⟩
      | bool b => exact ⟨[], by simp only [parse_to_output, hvs, hl1, hfp, except_bind_ok]; rfl⟩
      | num q => exact ⟨[], by simp only [parse_to_output, hvs, hl1, hfp, except_bind_ok]; rfl⟩
      | str s => exact ⟨[], by simp only [parse_to_output, hvs, hl1, hfp, except_bind_ok]; rfl⟩
      | obj fs => exact ⟨[], by simp only [parse_to_output, hvs, hl1, hfp, except_bind_ok]; rfl⟩
  obtain ⟨l2, hout⟩ := hmain
  exact ⟨_, hout, rfl, normalizeRecommendation_mem _, rfl, rfl, rfl, rfl, rfl⟩

/-- Witness for C8 as amended: an out-of-vocabulary recommendation with a
well-shaped valuations list parses without raising and is forced to HOLD. -/
theorem C8_witness :
    ∃ out, parse_to_output
        [("recommendation", .str "MAYBE"),
         ("valuations", .arr [.obj [("method", .str "PE"), ("value", .num 12)]])] =
      .ok out ∧ out.recommendation = "HOLD" := by
  obtain ⟨out, h1, h2, _⟩ := C8_amended
    [("recommendation", .str "MAYBE"),
     ("valuations", .arr [.obj [("method", .str "PE"), ("value", .num 12)]])]
    (by decide) (by decide)
  refine ⟨out, h1, ?_⟩
  rw [h2]
  decide
